import Mathlib

/-!
Shallow embedding of the development-session lifecycle manager of the
vscode-openshift-tools extension (the `Component` class: `devRunOn`,
`exitDevelopmentMode`, `forceExitDevMode` and the event handlers wired to the
spawned dev-loop child process and to the pseudo-terminal).

The embedding models one per-workspace session record (`ComponentDevState` in
the source) together with the observable effects of the handlers: signals sent
to the child process, text fired into the terminal sink, user-visible
messages, state-change notifications, and the closure environment of
`exitDevelopmentMode` (the `devCleaningTimeout` variable and the
`sigAbortSent` flag), which survives disposal of the stop request exactly as a
JavaScript closure does.
-/

namespace DevSession

/-- The `ComponentContextState` string enum of the source, one constructor per
enum member (`dev-nrn`, `dev-str`, `dev-run`, `dev-stp`, `deb-nrn`,
`deb-run`, `dep-nrn`, `dep-run`). -/
inductive ComponentContextState where
  | DEV
  | DEV_STARTING
  | DEV_RUNNING
  | DEV_STOPPING
  | DEB
  | DEB_RUNNING
  | DEP
  | DEP_RUNNING
deriving DecidableEq

/-- Signals the controller delivers through `ChildProcess.kill`. -/
inductive Signal where
  | SIGINT
  | SIGABRT
deriving DecidableEq

/-- The child-process handle as the handlers observe it: only its `exitCode`
field is consulted (`null` while the process is alive). -/
structure ChildProcess where
  exitCode : Option Int
deriving DecidableEq

/-- A Node.js timeout object as used by `exitDevelopmentMode`: whether it is
scheduled to fire (`pending`) and the duration it was armed with, which
`refresh()` reuses. -/
structure TimerHandle where
  pending : Bool
  duration : Nat
deriving DecidableEq

/-- The closure environment created by one call to
`Component.exitDevelopmentMode`: the `devCleaningTimeout` local variable
(`none` models the JavaScript value `undefined`, as set by `dispose`) and the
`sigAbortSent` flag. -/
structure StopRequestCell where
  devCleaningTimeout : Option TimerHandle
  sigAbortSent : Bool
deriving DecidableEq

/-- The spec vocabulary for the escalation timer: Armed (scheduled), Expired
(fired and not re-armed), Cancelled (cleared and handle set to undefined). -/
inductive TimerAbsState where
  | Armed
  | Expired
  | Cancelled
deriving DecidableEq

/-- Abstraction of a stop-request cell into the spec timer states: a cleared
handle is Cancelled, a scheduled one Armed, a fired and not re-armed one
Expired. -/
def timerAbsState (c : StopRequestCell) : TimerAbsState :=
  match c.devCleaningTimeout with
  | none => TimerAbsState.Cancelled
  | some h => if h.pending then TimerAbsState.Armed else TimerAbsState.Expired

/-- User-visible messages shown by the handlers. -/
inductive UserMessage where
  | errorMsg (text : String)
  | warnExitTakingLong
  | infoWarningExpired
deriving DecidableEq

/-- One payload fired into the terminal sink (`outputEmitter.fire`). The
initial command echo depends on the external `Command.dev(...)` string and is
kept abstract. -/
inductive TermOut where
  | startingCmdLine
  | text (s : String)
deriving DecidableEq

/-- Character-level replacement of every LF by CRLF. -/
def replaceLF : List Char → List Char
  | [] => []
  | c :: cs => if c = '\n' then '\r' :: '\n' :: replaceLF cs else c :: replaceLF cs

/-- `replaceAll('\n', '\r\n')` applied by the output handlers. -/
def toCRLF (s : String) : String := String.mk (replaceLF s.data)

/-- One per-workspace session record (`ComponentDevState`) together with the
effect logs of the handlers. `stopRequestAttached` models
`cs.devProcessStopRequest !== undefined`; `stopCell` is the closure
environment of the most recent `exitDevelopmentMode` call, which the warning
prompt callback still reads after the request was disposed. -/
structure SessionState where
  devStatus : Option ComponentContextState
  runOn : Option String
  devTerminal : Bool
  devProcess : Option ChildProcess
  stopRequestAttached : Bool
  stopCell : Option StopRequestCell
  cfgStopDevModeTimeout : Nat
  killed : List Signal
  emitted : List TermOut
  messages : List UserMessage
  stateChangedFires : Nat
  spawnToolCalls : Nat
  deleteResourcesCalls : Nat
deriving DecidableEq

/-- `Component.devModeExitTimeout()`: reads the configured
`stopDevModeTimeout` value. -/
def devModeExitTimeout (s : SessionState) : Nat := s.cfgStopDevModeTimeout

/-- `Component.exitDevelopmentMode` together with the assignment
`cs.devProcessStopRequest = Component.exitDevelopmentMode(cs.devProcess)`
performed at both call sites: creates a fresh closure with an armed timeout of
the configured duration and `sigAbortSent = false`, and attaches it to the
session. -/
def exitDevelopmentMode (s : SessionState) : SessionState :=
  { s with
    stopCell := some
      { devCleaningTimeout := some { pending := true, duration := devModeExitTimeout s }
        sigAbortSent := false }
    stopRequestAttached := true }

/-- The synchronous effect of `Component.devRunOn` through the opening of the
created terminal: set `devStatus` to `DEV_STARTING`, record `runOn`, fire a
state change, issue the delete-previously-pushed-resources call when not
running on podman, create the terminal, echo the starting command line, and
request a `spawnTool` of the dev loop. No check of the current `devStatus` is
performed. -/
def devRunOn (runOn : Option String) (s : SessionState) : SessionState :=
  let s1 := { s with
    devStatus := some ComponentContextState.DEV_STARTING
    runOn := runOn
    stateChangedFires := s.stateChangedFires + 1 }
  let s2 := if runOn = none then
      { s1 with deleteResourcesCalls := s1.deleteResourcesCalls + 1 }
    else s1
  { s2 with
    devTerminal := true
    emitted := s2.emitted ++ [TermOut.startingCmdLine]
    spawnToolCalls := s2.spawnToolCalls + 1 }

/-- The `devProcess.on('spawn')` handler: show the terminal, store the process
handle in the session, set `DEV_RUNNING`, fire a state change. -/
def onSpawn (p : ChildProcess) (s : SessionState) : SessionState :=
  { s with
    devProcess := some p
    devStatus := some ComponentContextState.DEV_RUNNING
    stateChangedFires := s.stateChangedFires + 1 }

/-- The `devProcess.on('error')` handler: show the error message, set the
status back to `DEV` (not running), fire a state change. It does not issue a
new spawn request. -/
def onSpawnError (msg : String) (s : SessionState) : SessionState :=
  { s with
    messages := s.messages ++ [UserMessage.errorMsg msg]
    devStatus := some ComponentContextState.DEV
    stateChangedFires := s.stateChangedFires + 1 }

/-- The `devProcess.stdout.on('data')` handler: if the session is still in
`DEV_STARTING`, transition to `DEV_RUNNING` and fire a state change; in every
case forward the chunk (with CRLF conversion) to the terminal sink. -/
def onStdoutData (chunk : String) (s : SessionState) : SessionState :=
  let s1 := if s.devStatus = some ComponentContextState.DEV_STARTING then
      { s with
        devStatus := some ComponentContextState.DEV_RUNNING
        stateChangedFires := s.stateChangedFires + 1 }
    else s
  { s1 with emitted := s1.emitted ++ [TermOut.text (toCRLF chunk)] }

/-- The value of `cs.devProcessStopRequest?.isSigabrtSent()` coerced to a
boolean by the `!` operator: `true` exactly when a stop request is attached
and its `sigAbortSent` flag is set. -/
def isSigabrtSentObserved (s : SessionState) : Bool :=
  s.stopRequestAttached &&
    (match s.stopCell with
     | some c => c.sigAbortSent
     | none => false)

/-- The `devProcess.stderr.on('data')` handler: forward the chunk wrapped in
red ANSI codes unless `cs.devProcessStopRequest?.isSigabrtSent()` holds. -/
def onStderrData (chunk : String) (s : SessionState) : SessionState :=
  if isSigabrtSentObserved s then s
  else
    { s with emitted := s.emitted ++
        [TermOut.text (toCRLF ("\x1b[31m" ++ chunk ++ "\x1b[0m"))] }

/-- The `dispose` member of the stop request: `clearTimeout(devCleaningTimeout)`
followed by `devCleaningTimeout = undefined`. -/
def disposeStopRequest (c : StopRequestCell) : StopRequestCell :=
  { c with devCleaningTimeout := none }

/-- The `devProcess.on('exit')` handler: if a stop request is attached,
dispose it and detach it; then print the closing hint, set the status back to
`DEV`, clear the process handle and fire a state change. -/
def onExit (s : SessionState) : SessionState :=
  let s1 := if s.stopRequestAttached then
      { s with
        stopCell := Option.map disposeStopRequest s.stopCell
        stopRequestAttached := false }
    else s
  { s1 with
    emitted := s1.emitted ++ [TermOut.text "\r\nPress any key to close this terminal\r\n"]
    devStatus := some ComponentContextState.DEV
    devProcess := none
    stateChangedFires := s1.stateChangedFires + 1 }

/-- The pty `close` handler: if a process handle is present with a null exit
code and no stop request is in flight, set `DEV_STOPPING`, fire a state
change, send SIGINT and arm a stop request; in every case clear the terminal
reference. -/
def onTerminalClose (s : SessionState) : SessionState :=
  let s1 :=
    match s.devProcess with
    | some p =>
      if p.exitCode = none ∧ s.stopRequestAttached = false then
        exitDevelopmentMode
          { s with
            devStatus := some ComponentContextState.DEV_STOPPING
            stateChangedFires := s.stateChangedFires + 1
            killed := s.killed ++ [Signal.SIGINT] }
      else s
    | none => s
  { s1 with devTerminal := false }

/-- The pty `handleInput` handler on input with the given character codes:
ignored entirely while `DEV_STARTING`; otherwise, with no process handle any
key disposes the terminal, and with a live handle a leading Ctrl-C (code 3)
while no stop request is in flight echoes `^C`, sets `DEV_STOPPING`, fires a
state change, sends SIGINT and arms a stop request. -/
def handleInput (data : List Nat) (s : SessionState) : SessionState :=
  if s.devStatus ≠ some ComponentContextState.DEV_STARTING then
    match s.devProcess with
    | none => { s with devTerminal := false }
    | some _ =>
      if s.stopRequestAttached = false ∧ data.head? = some 3 then
        exitDevelopmentMode
          { s with
            emitted := s.emitted ++ [TermOut.text "^C\r\n"]
            devStatus := some ComponentContextState.DEV_STOPPING
            stateChangedFires := s.stateChangedFires + 1
            killed := s.killed ++ [Signal.SIGINT] }
      else s
  else s

/-- The `sendSigabrt` member of the stop request: set the closure flag and
kill the captured process with SIGABRT. It performs no check of the flag
before sending. -/
def sendSigabrt (s : SessionState) : SessionState :=
  { s with
    stopCell := Option.map (fun c => { c with sigAbortSent := true }) s.stopCell
    killed := s.killed ++ [Signal.SIGABRT] }

/-- `Component.forceExitDevMode`: when a process handle is present with a null
exit code it calls `componentState.devProcessStopRequest.sendSigabrt()`; when
no stop request is attached that member access throws a TypeError (modelled as
`Except.error`), performed before any mutation or signal delivery. Otherwise
the command returns without effect. -/
def forceExitDevMode (s : SessionState) : Except String SessionState :=
  match s.devProcess with
  | some p =>
    if p.exitCode = none then
      if s.stopRequestAttached then Except.ok (sendSigabrt s)
      else Except.error "TypeError: cannot read property sendSigabrt of undefined"
    else Except.ok s
  | none => Except.ok s

/-- Firing of the armed `setTimeout` callback in `exitDevelopmentMode`: the
timer is no longer scheduled, and the warning prompt is shown. -/
def onDevCleaningTimeoutFire (s : SessionState) : SessionState :=
  { s with
    stopCell := Option.map
      (fun c =>
        { c with devCleaningTimeout :=
            Option.map (fun h => { h with pending := false }) c.devCleaningTimeout })
      s.stopCell
    messages := s.messages ++ [UserMessage.warnExitTakingLong] }

/-- Choices of the escalation warning prompt; `none` at the call site models
dismissal without a selection. -/
inductive PromptAction where
  | keepWaiting
  | forceExit
deriving DecidableEq

/-- The `.then((action) => ...)` continuation of the warning prompt: when the
closure variable `devCleaningTimeout` is already undefined only an
informational message is shown; otherwise Keep waiting calls `refresh()`
(re-arming with the original duration) and Force exit sets `sigAbortSent` and
kills the captured process with SIGABRT; dismissal does nothing. -/
def onStopWarningAnswer (a : Option PromptAction) (s : SessionState) : SessionState :=
  match s.stopCell with
  | none => s
  | some c =>
    match c.devCleaningTimeout with
    | none => { s with messages := s.messages ++ [UserMessage.infoWarningExpired] }
    | some h =>
      match a with
      | some PromptAction.keepWaiting =>
        { s with stopCell := some { c with devCleaningTimeout := some { h with pending := true } } }
      | some PromptAction.forceExit =>
        { s with
          stopCell := some { c with sigAbortSent := true }
          killed := s.killed ++ [Signal.SIGABRT] }
      | none => s

/-- Asynchronous events delivered to one session after a start request. -/
inductive DevEvent where
  | spawned (p : ChildProcess)
  | spawnFailed (msg : String)
  | stdoutData (chunk : String)
  | stderrData (chunk : String)
  | exited
  | terminalClosed
  | input (data : List Nat)
  | timeoutFired
  | warningAnswer (a : Option PromptAction)
  | forceExitCommand

/-- Event dispatch to the handlers. A `forceExitCommand` that throws leaves
the session unchanged: the throwing member access precedes every mutation. -/
def stepEvent (s : SessionState) (e : DevEvent) : SessionState :=
  match e with
  | DevEvent.spawned p => onSpawn p s
  | DevEvent.spawnFailed m => onSpawnError m s
  | DevEvent.stdoutData c => onStdoutData c s
  | DevEvent.stderrData c => onStderrData c s
  | DevEvent.exited => onExit s
  | DevEvent.terminalClosed => onTerminalClose s
  | DevEvent.input d => handleInput d s
  | DevEvent.timeoutFired => onDevCleaningTimeoutFire s
  | DevEvent.warningAnswer a => onStopWarningAnswer a s
  | DevEvent.forceExitCommand =>
    match forceExitDevMode s with
    | Except.ok t => t
    | Except.error _ => s

/-- Admissibility of an event: a `spawnFailed` error is the spawn-failure
event of the process contract (it occurs instead of, never after, a
successful `spawn`, so the session holds no process handle yet). All other
events are unrestricted. -/
def admissibleEvent (s : SessionState) (e : DevEvent) : Prop :=
  match e with
  | DevEvent.spawnFailed _ => s.devProcess = none
  | _ => True

/-- Session states reachable from a given state by admissible events. -/
inductive ReachableFrom (s0 : SessionState) : SessionState → Prop where
  | base : ReachableFrom s0 s0
  | next {s : SessionState} {e : DevEvent} :
      ReachableFrom s0 s → admissibleEvent s e → ReachableFrom s0 (stepEvent s e)

/-- The session record freshly created by `getComponentDevState` for a
dev-capable component, with a given configured stop timeout. -/
def freshSession (cfg : Nat) : SessionState :=
  { devStatus := some ComponentContextState.DEV
    runOn := none
    devTerminal := false
    devProcess := none
    stopRequestAttached := false
    stopCell := none
    cfgStopDevModeTimeout := cfg
    killed := []
    emitted := []
    messages := []
    stateChangedFires := 0
    spawnToolCalls := 0
    deleteResourcesCalls := 0 }

/-- Concrete scenario: the session right after a start request. -/
def sStarting : SessionState := devRunOn none (freshSession 5000)

/-- Concrete scenario: the session after the spawn signal arrived. -/
def sRunning : SessionState := onSpawn { exitCode := none } sStarting

/-- Concrete scenario: the session after the user pressed Ctrl-C — stopping,
SIGINT sent, escalation timer armed. -/
def sStopping : SessionState := handleInput [3] sRunning

/-- Concrete scenario: the armed timer fired and the warning prompt is up. -/
def sExpired : SessionState := onDevCleaningTimeoutFire sStopping

lemma devRunOn_devStatus (r : Option String) (s : SessionState) :
    (devRunOn r s).devStatus = some ComponentContextState.DEV_STARTING := by
  unfold devRunOn
  cases r <;> simp

lemma devRunOn_devProcess (r : Option String) (s : SessionState) :
    (devRunOn r s).devProcess = s.devProcess := by
  unfold devRunOn
  cases r <;> simp

lemma devRunOn_spawnToolCalls (r : Option String) (s : SessionState) :
    (devRunOn r s).spawnToolCalls = s.spawnToolCalls + 1 := by
  unfold devRunOn
  cases r <;> simp

lemma devRunOn_stateChangedFires (r : Option String) (s : SessionState) :
    (devRunOn r s).stateChangedFires = s.stateChangedFires + 1 := by
  unfold devRunOn
  cases r <;> simp

/-- Claim C1 counterexample: from the concrete reachable state `sRunning`
(devStatus `DEV_RUNNING`), a second call to `devRunOn` is not a no-op: it
changes `devStatus` back to `DEV_STARTING` and requests a second `spawnTool`
of the dev loop. -/
theorem devRunOn_second_start_not_noop :
    sRunning.devStatus = some ComponentContextState.DEV_RUNNING ∧
    (devRunOn none sRunning).devStatus ≠ sRunning.devStatus ∧
    (devRunOn none sRunning).spawnToolCalls = sRunning.spawnToolCalls + 1 ∧
    devRunOn none sRunning ≠ sRunning := by
  refine ⟨by decide, by decide, by decide, by decide⟩

/-- Claim C1 (amended): `devRunOn` performs no idempotence check at all —
from every session state, including Starting and Running, it unconditionally
sets `devStatus` to `DEV_STARTING`, fires a state-change notification and
requests a fresh spawn of the dev-loop process. -/
theorem devRunOn_always_restarts (r : Option String) (s : SessionState) :
    (devRunOn r s).devStatus = some ComponentContextState.DEV_STARTING ∧
    (devRunOn r s).spawnToolCalls = s.spawnToolCalls + 1 ∧
    (devRunOn r s).stateChangedFires = s.stateChangedFires + 1 :=
  ⟨devRunOn_devStatus r s, devRunOn_spawnToolCalls r s, devRunOn_stateChangedFires r s⟩

/-- Claim C2: for a session in `DEV_STOPPING` with an attached stop request
whose timer is still Armed, the process-exit handler transitions the status
to `DEV` (not running), detaches the stop request (it becomes undefined), and
disposes it, so the timer ends Cancelled rather than Expired. -/
theorem exit_during_stopping_cancels_timer (s : SessionState) (c : StopRequestCell)
    (h1 : s.devStatus = some ComponentContextState.DEV_STOPPING)
    (h2 : s.stopRequestAttached = true)
    (h3 : s.stopCell = some c)
    (h4 : timerAbsState c = TimerAbsState.Armed) :
    (onExit s).devStatus = some ComponentContextState.DEV ∧
    (onExit s).devProcess = none ∧
    (onExit s).stopRequestAttached = false ∧
    (onExit s).stopCell = some (disposeStopRequest c) ∧
    timerAbsState (disposeStopRequest c) = TimerAbsState.Cancelled ∧
    timerAbsState (disposeStopRequest c) ≠ TimerAbsState.Expired := by
  refine ⟨rfl, rfl, ?_, ?_, by simp [disposeStopRequest, timerAbsState], by simp [disposeStopRequest, timerAbsState]⟩
  · simp [onExit, h2]
  · simp [onExit, h2, h3]

/-- Claim C2 witness: the exit handler applied to the concrete stopping state
`sStopping`, whose timer is armed with the configured 5000ms duration. -/
theorem exit_during_stopping_cancels_timer_witness :
    (onExit sStopping).devStatus = some ComponentContextState.DEV ∧
    (onExit sStopping).devProcess = none ∧
    (onExit sStopping).stopRequestAttached = false ∧
    (onExit sStopping).stopCell = some (disposeStopRequest
      { devCleaningTimeout := some { pending := true, duration := 5000 }, sigAbortSent := false }) ∧
    timerAbsState (disposeStopRequest
      { devCleaningTimeout := some { pending := true, duration := 5000 }, sigAbortSent := false }) =
        TimerAbsState.Cancelled ∧
    timerAbsState (disposeStopRequest
      { devCleaningTimeout := some { pending := true, duration := 5000 }, sigAbortSent := false }) ≠
        TimerAbsState.Expired :=
  exit_during_stopping_cancels_timer sStopping
    { devCleaningTimeout := some { pending := true, duration := 5000 }, sigAbortSent := false }
    (by decide) (by decide) (by decide) (by decide)

/-- Claim C8: the spawn-error handler reverts the status to `DEV` (not
running), surfaces the error text as a user-visible message, fires a state
change, and issues no further spawn request (no automatic retry). -/
theorem spawn_error_reverts_and_reports (s : SessionState) (msg : String) :
    (onSpawnError msg s).devStatus = some ComponentContextState.DEV ∧
    (onSpawnError msg s).messages = s.messages ++ [UserMessage.errorMsg msg] ∧
    (onSpawnError msg s).spawnToolCalls = s.spawnToolCalls ∧
    (onSpawnError msg s).stateChangedFires = s.stateChangedFires + 1 :=
  ⟨rfl, rfl, rfl, rfl⟩

/-- Claim C3 counterexample: at the concrete expired-prompt state `sExpired`,
choosing Force exit sets the abort flag and kills, but leaves the timer in
the Expired abstract state — its handle is untouched and not cleared — rather
than moving it to Cancelled as the claim states. -/
theorem force_exit_leaves_timer_expired :
    sExpired.stopCell = some
      { devCleaningTimeout := some { pending := false, duration := 5000 }, sigAbortSent := false } ∧
    (onStopWarningAnswer (some PromptAction.forceExit) sExpired).stopCell = some
      { devCleaningTimeout := some { pending := false, duration := 5000 }, sigAbortSent := true } ∧
    timerAbsState
      { devCleaningTimeout := some { pending := false, duration := 5000 }, sigAbortSent := true } =
        TimerAbsState.Expired ∧
    timerAbsState
      { devCleaningTimeout := some { pending := false, duration := 5000 }, sigAbortSent := true } ≠
        TimerAbsState.Cancelled := by
  refine ⟨by decide, by decide, by decide, by decide⟩

/-- Claim C3 (amended): when the armed escalation timer has expired and the
prompt is answered while the timer handle is still set, Keep waiting re-arms
the timer with the same duration and does not invoke the forceful-termination
callback, while Force exit invokes the forceful callback (SIGABRT) exactly
once and sets the abort flag — but the timer remains in the Expired state,
not Cancelled: it is only cancelled later, when the stop request is disposed
on process exit. -/
theorem warning_prompt_answer_behaviour (s : SessionState) (c : StopRequestCell) (h : TimerHandle)
    (hc : s.stopCell = some c) (hh : c.devCleaningTimeout = some h) (hp : h.pending = false) :
    (onStopWarningAnswer (some PromptAction.keepWaiting) s).stopCell =
      some { c with devCleaningTimeout := some { h with pending := true } } ∧
    (onStopWarningAnswer (some PromptAction.keepWaiting) s).killed = s.killed ∧
    (onStopWarningAnswer (some PromptAction.forceExit) s).killed = s.killed ++ [Signal.SIGABRT] ∧
    (onStopWarningAnswer (some PromptAction.forceExit) s).stopCell =
      some { c with sigAbortSent := true } ∧
    timerAbsState { c with sigAbortSent := true } = TimerAbsState.Expired := by
  refine ⟨?_, ?_, ?_, ?_, ?_⟩ <;>
    simp [onStopWarningAnswer, hc, hh, timerAbsState, hp]

/-- Claim C3 witness: the amended behaviour at the concrete expired-prompt
state `sExpired`. -/
theorem warning_prompt_answer_behaviour_witness :
    (onStopWarningAnswer (some PromptAction.keepWaiting) sExpired).stopCell =
      some { devCleaningTimeout := some { pending := true, duration := 5000 }, sigAbortSent := false } ∧
    (onStopWarningAnswer (some PromptAction.keepWaiting) sExpired).killed = sExpired.killed ∧
    (onStopWarningAnswer (some PromptAction.forceExit) sExpired).killed =
      sExpired.killed ++ [Signal.SIGABRT] ∧
    (onStopWarningAnswer (some PromptAction.forceExit) sExpired).stopCell =
      some { devCleaningTimeout := some { pending := false, duration := 5000 }, sigAbortSent := true } ∧
    timerAbsState
      { devCleaningTimeout := some { pending := false, duration := 5000 }, sigAbortSent := true } =
        TimerAbsState.Expired :=
  warning_prompt_answer_behaviour sExpired
    { devCleaningTimeout := some { pending := false, duration := 5000 }, sigAbortSent := false }
    { pending := false, duration := 5000 }
    (by decide) (by decide) (by decide)

/-- Claim C4: from a session still in `DEV_STARTING`, both the spawn signal
and a first stdout chunk transition the status to `DEV_RUNNING`; in either
arrival order the first event performs the transition and the second leaves
the status value unchanged (the stdout handler after spawn additionally fires
no state-change notification). -/
theorem sign_of_life_transition (s : SessionState) (p : ChildProcess) (c1 c2 : String)
    (h : s.devStatus = some ComponentContextState.DEV_STARTING) :
    (onSpawn p s).devStatus = some ComponentContextState.DEV_RUNNING ∧
    (onStdoutData c1 (onSpawn p s)).devStatus = some ComponentContextState.DEV_RUNNING ∧
    (onStdoutData c1 (onSpawn p s)).stateChangedFires = (onSpawn p s).stateChangedFires ∧
    (onStdoutData c2 s).devStatus = some ComponentContextState.DEV_RUNNING ∧
    (onSpawn p (onStdoutData c2 s)).devStatus = some ComponentContextState.DEV_RUNNING := by
  refine ⟨rfl, ?_, ?_, ?_, rfl⟩ <;> simp [onStdoutData, onSpawn, h]

/-- Claim C4 witness: both arrival orders at the concrete starting state
`sStarting`. -/
theorem sign_of_life_transition_witness :
    (onSpawn { exitCode := none } sStarting).devStatus = some ComponentContextState.DEV_RUNNING ∧
    (onStdoutData "out" (onSpawn { exitCode := none } sStarting)).devStatus =
      some ComponentContextState.DEV_RUNNING ∧
    (onStdoutData "out" (onSpawn { exitCode := none } sStarting)).stateChangedFires =
      (onSpawn { exitCode := none } sStarting).stateChangedFires ∧
    (onStdoutData "log" sStarting).devStatus = some ComponentContextState.DEV_RUNNING ∧
    (onSpawn { exitCode := none } (onStdoutData "log" sStarting)).devStatus =
      some ComponentContextState.DEV_RUNNING :=
  sign_of_life_transition sStarting { exitCode := none } "out" "log" (by decide)

/-- Claim C9: in every session state where a stop request is attached and its
`sigAbortSent` flag is set, the stderr handler discards its chunk entirely
(the session, including the terminal sink log, is unchanged), while the
stdout handler still forwards its chunk to the sink. -/
theorem stderr_dropped_after_sigabrt (s : SessionState) (cell : StopRequestCell) (e o : String)
    (h1 : s.stopRequestAttached = true) (h2 : s.stopCell = some cell)
    (h3 : cell.sigAbortSent = true) :
    onStderrData e s = s ∧
    (onStdoutData o s).emitted = s.emitted ++ [TermOut.text (toCRLF o)] := by
  constructor
  · simp [onStderrData, isSigabrtSentObserved, h1, h2, h3]
  · unfold onStdoutData
    split <;> rfl

/-- Claim C9 witness: after the forceful abort was sent in the concrete
stopping scenario, a stderr chunk is dropped and a stdout chunk forwarded. -/
theorem stderr_dropped_after_sigabrt_witness :
    onStderrData "err" (sendSigabrt sStopping) = sendSigabrt sStopping ∧
    (onStdoutData "out" (sendSigabrt sStopping)).emitted =
      (sendSigabrt sStopping).emitted ++ [TermOut.text (toCRLF "out")] :=
  stderr_dropped_after_sigabrt (sendSigabrt sStopping)
    { devCleaningTimeout := some { pending := true, duration := 5000 }, sigAbortSent := true }
    "err" "out" (by decide) (by decide) (by decide)

/-- Claim C10: when the warning prompt is answered after the stop request was
disposed (the closure's timer handle is already undefined), every answer —
Keep waiting, Force exit, or dismissal — only shows the informational
expired message: the timer is not re-armed, no signal is sent, and nothing
else in the session changes. -/
theorem late_prompt_answer_noop (s : SessionState) (cell : StopRequestCell)
    (a : Option PromptAction)
    (h1 : s.stopCell = some cell) (h2 : cell.devCleaningTimeout = none) :
    onStopWarningAnswer a s =
      { s with messages := s.messages ++ [UserMessage.infoWarningExpired] } ∧
    (onStopWarningAnswer a s).killed = s.killed ∧
    (onStopWarningAnswer a s).stopCell = s.stopCell := by
  refine ⟨?_, ?_, ?_⟩ <;> simp [onStopWarningAnswer, h1, h2]

/-- Claim C10 witness: answering Force exit after the process already exited
in the concrete stopping scenario has no effect beyond the message. -/
theorem late_prompt_answer_noop_witness :
    onStopWarningAnswer (some PromptAction.forceExit) (onExit sStopping) =
      { (onExit sStopping) with
        messages := (onExit sStopping).messages ++ [UserMessage.infoWarningExpired] } ∧
    (onStopWarningAnswer (some PromptAction.forceExit) (onExit sStopping)).killed =
      (onExit sStopping).killed ∧
    (onStopWarningAnswer (some PromptAction.forceExit) (onExit sStopping)).stopCell =
      (onExit sStopping).stopCell :=
  late_prompt_answer_noop (onExit sStopping)
    { devCleaningTimeout := none, sigAbortSent := false }
    (some PromptAction.forceExit) (by decide) (by decide)

/-- Claim C5 counterexample: in the concrete starting state `sStarting`
(devStatus `DEV_STARTING`, no stop in flight), a Ctrl-C input is ignored
entirely — no SIGINT is sent and the status does not become `DEV_STOPPING` —
contradicting the claim that a stop request from Starting is accepted like
one from Running. -/
theorem ctrl_c_ignored_while_starting :
    sStarting.devStatus = some ComponentContextState.DEV_STARTING ∧
    sStarting.stopRequestAttached = false ∧
    handleInput [3] sStarting = sStarting ∧
    (handleInput [3] sStarting).devStatus ≠ some ComponentContextState.DEV_STOPPING ∧
    (handleInput [3] sStarting).killed = [] := by
  refine ⟨by decide, by decide, by decide, by decide, by decide⟩

/-- Claim C5 (amended): a stop request through terminal input is accepted
exactly when the status is not `DEV_STARTING`, a process handle is present,
no stop request is in flight and the input starts with Ctrl-C (code 3); on
acceptance it sends SIGINT, transitions to `DEV_STOPPING` and arms exactly
one escalation timer with the configured grace duration. While
`DEV_STARTING` all input is ignored — a cancel-before-ready stop is not
accepted — and in every other non-accepted case with a live handle the
session is unchanged. -/
theorem handleInput_stop_acceptance (s : SessionState) (data : List Nat) :
    (s.devStatus = some ComponentContextState.DEV_STARTING → handleInput data s = s) ∧
    (∀ p, s.devProcess = some p → s.devStatus ≠ some ComponentContextState.DEV_STARTING →
      ((s.stopRequestAttached = false ∧ data.head? = some 3) →
        (handleInput data s).devStatus = some ComponentContextState.DEV_STOPPING ∧
        (handleInput data s).killed = s.killed ++ [Signal.SIGINT] ∧
        (handleInput data s).stopRequestAttached = true ∧
        (handleInput data s).stopCell = some
          { devCleaningTimeout := some { pending := true, duration := s.cfgStopDevModeTimeout }
            sigAbortSent := false }) ∧
      (¬(s.stopRequestAttached = false ∧ data.head? = some 3) → handleInput data s = s)) := by
  constructor
  · intro hst
    simp [handleInput, hst]
  · intro p hp hne
    constructor
    · intro hacc
      refine ⟨?_, ?_, ?_, ?_⟩ <;>
        simp [handleInput, hne, hp, hacc, exitDevelopmentMode, devModeExitTimeout]
    · intro hnacc
      simp [handleInput, hne, hp, hnacc]

/-- Claim C5 witness: Ctrl-C at the concrete running state `sRunning` is
accepted — SIGINT sent, status `DEV_STOPPING`, one timer armed with the
configured 5000ms duration. -/
theorem handleInput_stop_acceptance_witness :
    (handleInput [3] sRunning).devStatus = some ComponentContextState.DEV_STOPPING ∧
    (handleInput [3] sRunning).killed = sRunning.killed ++ [Signal.SIGINT] ∧
    (handleInput [3] sRunning).stopRequestAttached = true ∧
    (handleInput [3] sRunning).stopCell = some
      { devCleaningTimeout := some { pending := true, duration := sRunning.cfgStopDevModeTimeout }
        sigAbortSent := false } :=
  ((handleInput_stop_acceptance sRunning [3]).2 { exitCode := none }
    (by decide) (by decide)).1 ⟨by decide, by decide⟩

/-- Claim C6 counterexample: in the concrete stopping state `sStopping` a
first `forceExitDevMode` sends SIGABRT, and a second call while the process
is still alive is accepted again and sends a second SIGABRT — repeated calls
are not a no-op beyond the first. -/
theorem repeated_force_exit_sends_again :
    forceExitDevMode sStopping = Except.ok (sendSigabrt sStopping) ∧
    forceExitDevMode (sendSigabrt sStopping) = Except.ok (sendSigabrt (sendSigabrt sStopping)) ∧
    (sendSigabrt sStopping).killed = [Signal.SIGINT, Signal.SIGABRT] ∧
    (sendSigabrt (sendSigabrt sStopping)).killed =
      [Signal.SIGINT, Signal.SIGABRT, Signal.SIGABRT] := by
  refine ⟨rfl, rfl, by decide, by decide⟩

/-- Claim C6 (amended): `forceExitDevMode` is a no-op when no process handle
exists or the process has already exited; when the process is alive but no
stop request is attached (the session is not Stopping) it throws a TypeError
— no signal is delivered and no session state changes, but the rejection is a
crash, not a graceful check; and while Stopping with a live process every
call, not only the first, sends SIGABRT again — the code never consults
`isSigabrtSent` before sending, so repeated calls are idempotent only once
the process has exited. -/
theorem forceExitDevMode_behaviour (s : SessionState) :
    (s.devProcess = none → forceExitDevMode s = Except.ok s) ∧
    (∀ p code, s.devProcess = some p → p.exitCode = some code →
      forceExitDevMode s = Except.ok s) ∧
    (∀ p, s.devProcess = some p → p.exitCode = none → s.stopRequestAttached = false →
      ∃ msg, forceExitDevMode s = Except.error msg) ∧
    (∀ p, s.devProcess = some p → p.exitCode = none → s.stopRequestAttached = true →
      forceExitDevMode s = Except.ok (sendSigabrt s) ∧
      (sendSigabrt s).killed = s.killed ++ [Signal.SIGABRT]) := by
  refine ⟨?_, ?_, ?_, ?_⟩
  · intro hp
    simp [forceExitDevMode, hp]
  · intro p code hp hc
    simp [forceExitDevMode, hp, hc]
  · intro p hp hc ha
    exact ⟨"TypeError: cannot read property sendSigabrt of undefined",
      by simp [forceExitDevMode, hp, hc, ha]⟩
  · intro p hp hc ha
    exact ⟨by simp [forceExitDevMode, hp, hc, ha], rfl⟩

/-- Claim C6 witness: at the concrete running state `sRunning` (live process,
no stop request) the call throws, and at the stopping state `sStopping` it
sends SIGABRT. -/
theorem forceExitDevMode_behaviour_witness :
    (∃ msg, forceExitDevMode sRunning = Except.error msg) ∧
    (forceExitDevMode sStopping = Except.ok (sendSigabrt sStopping) ∧
      (sendSigabrt sStopping).killed = sStopping.killed ++ [Signal.SIGABRT]) :=
  ⟨(forceExitDevMode_behaviour sRunning).2.2.1 { exitCode := none }
      (by decide) (by decide) (by decide),
    (forceExitDevMode_behaviour sStopping).2.2.2 { exitCode := none }
      (by decide) (by decide) (by decide)⟩

/-- The process/status relationship that actually holds of the code: a
stopping session always holds a process handle, and a held handle implies the
session is running or stopping. -/
def procStatusInv (s : SessionState) : Prop :=
  (s.devStatus = some ComponentContextState.DEV_STOPPING → s.devProcess ≠ none) ∧
  (s.devProcess ≠ none →
    s.devStatus = some ComponentContextState.DEV_RUNNING ∨
    s.devStatus = some ComponentContextState.DEV_STOPPING)

lemma procStatusInv_of_same (s t : SessionState)
    (h1 : t.devStatus = s.devStatus) (h2 : t.devProcess = s.devProcess)
    (ih : procStatusInv s) : procStatusInv t := by
  unfold procStatusInv
  rw [h1, h2]
  exact ih

lemma procStatusInv_step (s : SessionState) (e : DevEvent)
    (hadm : admissibleEvent s e) (ih : procStatusInv s) :
    procStatusInv (stepEvent s e) := by
  cases e with
  | spawned p =>
    constructor
    · intro _
      simp [stepEvent, onSpawn]
    · intro _
      left
      simp [stepEvent, onSpawn]
  | spawnFailed m =>
    have hp : s.devProcess = none := hadm
    constructor
    · intro hc
      simp [stepEvent, onSpawnError] at hc
    · intro hc
      exact absurd (by simp [stepEvent, onSpawnError, hp]) hc
  | stdoutData c =>
    by_cases hst : s.devStatus = some ComponentContextState.DEV_STARTING
    · constructor
      · intro hc
        simp [stepEvent, onStdoutData, hst] at hc
      · intro _
        left
        simp [stepEvent, onStdoutData, hst]
    · exact procStatusInv_of_same s _ (by simp [stepEvent, onStdoutData, hst])
        (by simp [stepEvent, onStdoutData, hst]) ih
  | stderrData c =>
    by_cases hg : isSigabrtSentObserved s = true
    · exact procStatusInv_of_same s _ (by simp [stepEvent, onStderrData, hg])
        (by simp [stepEvent, onStderrData, hg]) ih
    · exact procStatusInv_of_same s _ (by simp [stepEvent, onStderrData, hg])
        (by simp [stepEvent, onStderrData, hg]) ih
  | exited =>
    constructor
    · intro hc
      simp [stepEvent, onExit] at hc
    · intro hc
      exact absurd (by simp [stepEvent, onExit]) hc
  | terminalClosed =>
    cases hp : s.devProcess with
    | none =>
      exact procStatusInv_of_same s _ (by simp [stepEvent, onTerminalClose, hp])
        (by simp [stepEvent, onTerminalClose, hp]) ih
    | some p =>
      by_cases hg : p.exitCode = none ∧ s.stopRequestAttached = false
      · constructor
        · intro _
          simp [stepEvent, onTerminalClose, hp, hg, exitDevelopmentMode]
        · intro _
          right
          simp [stepEvent, onTerminalClose, hp, hg, exitDevelopmentMode]
      · exact procStatusInv_of_same s _ (by simp [stepEvent, onTerminalClose, hp, hg])
          (by simp [stepEvent, onTerminalClose, hp, hg]) ih
  | input d =>
    by_cases hst : s.devStatus = some ComponentContextState.DEV_STARTING
    · exact procStatusInv_of_same s _ (by simp [stepEvent, handleInput, hst])
        (by simp [stepEvent, handleInput, hst]) ih
    · cases hp : s.devProcess with
      | none =>
        exact procStatusInv_of_same s _ (by simp [stepEvent, handleInput, hst, hp])
          (by simp [stepEvent, handleInput, hst, hp]) ih
      | some p =>
        by_cases hg : s.stopRequestAttached = false ∧ d.head? = some 3
        · constructor
          · intro _
            simp [stepEvent, handleInput, hst, hp, hg, exitDevelopmentMode]
          · intro _
            right
            simp [stepEvent, handleInput, hst, hp, hg, exitDevelopmentMode]
        · exact procStatusInv_of_same s _ (by simp [stepEvent, handleInput, hst, hp, hg])
            (by simp [stepEvent, handleInput, hst, hp, hg]) ih
  | timeoutFired =>
    exact procStatusInv_of_same s _ rfl rfl ih
  | warningAnswer a =>
    cases hc : s.stopCell with
    | none =>
      exact procStatusInv_of_same s _ (by simp [stepEvent, onStopWarningAnswer, hc])
        (by simp [stepEvent, onStopWarningAnswer, hc]) ih
    | some c =>
      cases hh : c.devCleaningTimeout with
      | none =>
        exact procStatusInv_of_same s _ (by simp [stepEvent, onStopWarningAnswer, hc, hh])
          (by simp [stepEvent, onStopWarningAnswer, hc, hh]) ih
      | some h =>
        cases a with
        | none =>
          exact procStatusInv_of_same s _ (by simp [stepEvent, onStopWarningAnswer, hc, hh])
            (by simp [stepEvent, onStopWarningAnswer, hc, hh]) ih
        | some act =>
          cases act <;>
            exact procStatusInv_of_same s _ (by simp [stepEvent, onStopWarningAnswer, hc, hh])
              (by simp [stepEvent, onStopWarningAnswer, hc, hh]) ih
  | forceExitCommand =>
    cases hp : s.devProcess with
    | none =>
      exact procStatusInv_of_same s _ (by simp [stepEvent, forceExitDevMode, hp])
        (by simp [stepEvent, forceExitDevMode, hp]) ih
    | some p =>
      by_cases he : p.exitCode = none
      · by_cases ha : s.stopRequestAttached = true
        · exact procStatusInv_of_same s _
            (by simp [stepEvent, forceExitDevMode, hp, he, ha, sendSigabrt])
            (by simp [stepEvent, forceExitDevMode, hp, he, ha, sendSigabrt]) ih
        · exact procStatusInv_of_same s _
            (by simp [stepEvent, forceExitDevMode, hp, he, ha])
            (by simp [stepEvent, forceExitDevMode, hp, he, ha]) ih
      · exact procStatusInv_of_same s _ (by simp [stepEvent, forceExitDevMode, hp, he])
          (by simp [stepEvent, forceExitDevMode, hp, he]) ih

/-- Claim C7 counterexample: the session right after a start request is a
reachable state in `DEV_STARTING` — not NotRunning — that holds no process
handle: the handle is only stored by the spawn handler, so the claimed iff
between a non-null process and a non-NotRunning status fails. -/
theorem starting_holds_no_process :
    ReachableFrom sStarting sStarting ∧
    sStarting.devStatus = some ComponentContextState.DEV_STARTING ∧
    sStarting.devProcess = none ∧
    ¬(sStarting.devProcess ≠ none ↔ sStarting.devStatus ≠ some ComponentContextState.DEV) :=
  ⟨ReachableFrom.base, by decide, by decide, by decide⟩

/-- Claim C7 (amended): over every session state reachable from a single
start request by admissible events, the process handle obeys: a stopping
session always holds a handle, and a held handle implies the session is
running or stopping. A session in `DEV_STARTING` holds no handle (it is only
assigned by the spawn handler), and a running session may hold none when the
transition came through the stdout fallback. -/
theorem devProcess_devStatus_invariant (cfg : Nat) (r : Option String) (t : SessionState)
    (hreach : ReachableFrom (devRunOn r (freshSession cfg)) t) :
    (t.devStatus = some ComponentContextState.DEV_STOPPING → t.devProcess ≠ none) ∧
    (t.devProcess ≠ none →
      t.devStatus = some ComponentContextState.DEV_RUNNING ∨
      t.devStatus = some ComponentContextState.DEV_STOPPING) := by
  have base : procStatusInv (devRunOn r (freshSession cfg)) := by
    constructor
    · intro hc
      rw [devRunOn_devStatus] at hc
      simp at hc
    · intro hc
      rw [devRunOn_devProcess] at hc
      exact absurd rfl hc
  induction hreach with
  | base => exact base
  | next hr hadm ih => exact procStatusInv_step _ _ hadm ih

/-- Claim C7 witness: the amended invariant evaluated on the concrete
three-step trace start, spawn, Ctrl-C, which ends stopping with a live
handle. -/
theorem devProcess_devStatus_invariant_witness :
    ((stepEvent (stepEvent sStarting (DevEvent.spawned { exitCode := none }))
        (DevEvent.input [3])).devStatus = some ComponentContextState.DEV_STOPPING →
      (stepEvent (stepEvent sStarting (DevEvent.spawned { exitCode := none }))
        (DevEvent.input [3])).devProcess ≠ none) ∧
    ((stepEvent (stepEvent sStarting (DevEvent.spawned { exitCode := none }))
        (DevEvent.input [3])).devProcess ≠ none →
      (stepEvent (stepEvent sStarting (DevEvent.spawned { exitCode := none }))
        (DevEvent.input [3])).devStatus = some ComponentContextState.DEV_RUNNING ∨
      (stepEvent (stepEvent sStarting (DevEvent.spawned { exitCode := none }))
        (DevEvent.input [3])).devStatus = some ComponentContextState.DEV_STOPPING) :=
  devProcess_devStatus_invariant 5000 none _
    (ReachableFrom.next (ReachableFrom.next ReachableFrom.base trivial) trivial)

end DevSession
